import Mathlib

/-!
Shallow embedding of the buildkite agent worker (src/agent/agent_worker.go)
and verification of the frozen claims about it.

External collaborators (the API client, the job runner, the timers, the
clock) are modelled as explicit inputs; each handler returns the updated
worker state together with the ordered trace of observable actions it
performs on its collaborators.  The `Stop` path is serialised in the source
by `stopMutex`, so a sequence of Stop calls (from any goroutines) is
faithfully modelled as sequential composition.
-/

namespace AgentWorkerModel

/-- Actions the worker performs on its collaborators, in source order. -/
inductive Action where
  | logDebug (msg : String)
  | logInfo (msg : String)
  | logWarn (msg : String)
  | logError (msg : String)
  | updateProcTitle (title : String)
  | cancelJob (runner : Nat)
  | runJob (runner : Nat)
  | closeStop
  | resetDisconnectTimer (seconds : Int)
  | stopDisconnectTimer
  | resetIdleTimer (seconds : Int)
  | acceptJobCall
  | pingCall
  | tickerStop
  deriving DecidableEq

/-- AgentWorkerConfig (agent_worker.go lines 17-38).  JobRunnerConfig is
opaque to the worker and carries no observable state, so it is omitted. -/
structure AgentWorkerConfig where
  debug : Bool
  endpoint : String
  disableHTTP2 : Bool
  disconnectAfterJob : Bool
  disconnectAfterJobTimeout : Int
  disconnectAfterIdleTimeout : Int
  deriving DecidableEq

/-- APIClientConfig as consumed by NewAPIClient (lines 100-104, 358-361). -/
structure APIClientConfig where
  endpoint : String
  token : String
  disableHTTP2 : Bool
  deriving DecidableEq

/-- The API client, modelled as remembering the configuration it was
constructed with. -/
structure APIClient where
  config : APIClientConfig
  deriving DecidableEq

def NewAPIClient (c : APIClientConfig) : APIClient := ⟨c⟩

/-- A Go timer, modelled by the duration it was last armed with and whether
its Stop method has been called since. -/
structure Timer where
  seconds : Int
  stopped : Bool
  deriving DecidableEq

/-- timer.Reset(d): re-arms the timer for d. -/
def Timer.reset (_t : Timer) (d : Int) : Timer := ⟨d, false⟩

/-- timer.Stop(): disarms the timer. -/
def Timer.stop (t : Timer) : Timer := { t with stopped := true }

/-- api.AgentRegisterResponse, the fields the worker reads (name, access
token, endpoint, ping interval, heartbeat interval). -/
structure AgentRegisterResponse where
  name : String
  accessToken : String
  endpoint : String
  pingInterval : Int
  heartbeatInterval : Int
  deriving DecidableEq

/-- The AgentWorker state (lines 40-88).  `stopClosed` models whether the
`stop` channel has been closed; `jobRunner` is the identity of the current
job runner, if any. -/
structure AgentWorker where
  lastPing : Int
  lastHeartbeat : Int
  conf : AgentWorkerConfig
  apiClient : APIClient
  agent : AgentRegisterResponse
  running : Bool
  disconnectTimeoutTimer : Option Timer
  idleTimer : Option Timer
  stopClosed : Bool
  stopping : Bool
  jobRunner : Option Nat
  deriving DecidableEq

/-- NewAgentWorker (lines 91-115): picks the agent endpoint when non-empty,
otherwise the configured default, and builds the API client with the agent
access token and the configured DisableHTTP2 flag. -/
def NewAgentWorker (a : AgentRegisterResponse) (c : AgentWorkerConfig) : AgentWorker :=
  let endpoint := if a.endpoint ≠ "" then a.endpoint else c.endpoint
  let apiClient := NewAPIClient
    { endpoint := endpoint, token := a.accessToken, disableHTTP2 := c.disableHTTP2 }
  { lastPing := 0
    lastHeartbeat := 0
    conf := c
    apiClient := apiClient
    agent := a
    running := false
    disconnectTimeoutTimer := none
    idleTimer := none
    stopClosed := false
    stopping := false
    jobRunner := none }

/-- The mode-dependent logging prefix of Stop (lines 229-253).  In forceful
mode with a job running, this includes the Cancel call on the runner; the
graceful branch only inspects `stopping` to pick its message. -/
def stopModeActs (a : AgentWorker) (graceful : Bool) : List Action :=
  if graceful then
    if a.stopping then
      [Action.logWarn "agent is already gracefully stopping"]
    else
      match a.jobRunner with
      | some _ => [Action.logInfo "gracefully stopping agent, waiting for current job"]
      | none => [Action.logInfo "gracefully stopping agent, no job running"]
  else
    match a.jobRunner with
    | some r =>
        [Action.logInfo "forcefully stopping agent, canceling current job",
         Action.cancelJob r]
    | none => [Action.logInfo "forcefully stopping agent, no job running"]

/-- Stop (lines 223-270).  The whole body runs under `stopMutex`.  After the
mode-dependent logging (and possible Cancel), a second call returns early
(line 257); the first call updates the proc title, closes the stop channel
and sets `stopping`. -/
def Stop (a : AgentWorker) (graceful : Bool) : AgentWorker × List Action :=
  if a.stopping then
    (a, stopModeActs a graceful)
  else
    ({ a with stopClosed := true, stopping := true },
     stopModeActs a graceful ++ [Action.updateProcTitle "stopping", Action.closeStop])

/-- Sequential composition of a list of Stop calls (the source serialises
all Stop calls through `stopMutex`, so any interleaving of N calls is some
sequential order of them). -/
def stopN : AgentWorker → List Bool → AgentWorker × List Action
  | a, [] => (a, [])
  | a, m :: ms =>
      let step := Stop a m
      let rest := stopN step.1 ms
      (rest.1, step.2 ++ rest.2)

/-- Number of closes of the stop channel in a trace. -/
def countClose : List Action → Nat
  | [] => 0
  | Action.closeStop :: tr => countClose tr + 1
  | _ :: tr => countClose tr

/-- stopIfIdle (lines 272-278). -/
def stopIfIdle (a : AgentWorker) : AgentWorker × List Action :=
  if a.jobRunner.isNone && !a.stopping then
    Stop a true
  else
    (a, [Action.logDebug "agent is running a job, letting it finish"])

/-- The elapsed-since-last-success duration logged when a heartbeat fails
(lines 144-151).  The source loads the `lastPing` field (line 147:
`atomic.LoadInt64 of a.lastPing`), although the local variable receiving it
is named `lastHeartbeat`, and subtracts it from the current time. -/
def heartbeatFailureElapsed (a : AgentWorker) (now : Int) : Int :=
  now - a.lastPing

/-- Modelled from the spec: the claim says the elapsed duration in the
heartbeat-failure log is computed from the timestamp of the last successful
heartbeat (`last_heartbeat_unix_seconds`).  Stated only for comparison with
the source computation `heartbeatFailureElapsed`. -/
def heartbeatFailureElapsedSpec (a : AgentWorker) (now : Int) : Int :=
  now - a.lastHeartbeat

/-- Go time.NewTicker: panics when the requested interval is not positive
("non-positive interval for NewTicker"); otherwise yields the ticker. -/
def NewTicker (seconds : Int) : Except String Int :=
  if seconds ≤ 0 then Except.error "non-positive interval for NewTicker"
  else Except.ok seconds

/-- The prefix of Start (lines 118-137) that runs unconditionally once the
metrics collector has started: the ping interval is computed from the agent
descriptor (line 133) and handed to time.NewTicker (line 137).  The error
value models the panic raised by time.NewTicker on a non-positive
interval. -/
def startCreateTicker (a : AgentWorker) : Except String Int :=
  NewTicker a.agent.pingInterval

/-- The event a ping-loop iteration observes at its select (lines 207-217):
either the ping ticker fires or the stop channel is closed. -/
inductive LoopEvent where
  | tick
  | stopSignal
  deriving DecidableEq

/-- The main loop of Start (lines 200-218).  Each iteration first issues a
Ping unless `stopping` is set (lines 203-205), then blocks on the select;
a tick continues the loop, the stop signal stops the ticker and returns.
`flags` lists the value of `stopping` read at each iteration (it may be
flipped concurrently by Stop); `events` lists which channel fires at each
select, and the trace is cut if the supplied schedule runs out. -/
def mainLoop : List Bool → List LoopEvent → List Action
  | _, [] => []
  | flags, e :: es =>
      (if flags.headD false then [] else [Action.pingCall]) ++
      (match e with
       | LoopEvent.tick => mainLoop flags.tail es
       | LoopEvent.stopSignal => [Action.tickerStop])

/-- Number of Ping attempts in a trace. -/
def countPing : List Action → Nat
  | [] => 0
  | Action.pingCall :: tr => countPing tr + 1
  | _ :: tr => countPing tr

/-- Fields of an api.Job the worker reads. -/
structure Job where
  id : String
  deriving DecidableEq

/-- The fields of a ping response the worker observes (lines 354-391). -/
structure PingResponse where
  endpoint : String
  message : String
  action : String
  job : Option Job
  deriving DecidableEq

/-- Results of the external calls a single Ping may make, supplied as
input: the ping itself (`none` is a transport error), the probe of a
candidate endpoint, the outcome of the Accept retry loop, the two return
values of NewJobRunner, the error returned by Run, and the current time. -/
structure PingEnv where
  pingResult : Option PingResponse
  probeResult : Option PingResponse
  acceptResult : Option Job
  newRunner : Option Nat
  newRunnerErr : Option String
  runErr : Option String
  now : Int
  deriving DecidableEq

/-- Short job id used in the proc title (line 394):
strings.Split(id, "-")[0]. -/
def jobTitleShort (id : String) : String :=
  (id.splitOn "-").headD ""

/-- The endpoint-switch step of Ping (lines 354-372).  When the response
carries a different non-empty endpoint, a fresh client is built with the
agent access token; the Go struct literal omits the DisableHTTP2 field, so
it takes the zero value false.  If the probe of the new endpoint fails the
switch is ignored; otherwise the client is swapped, the agent endpoint is
updated, and the probed response replaces the original one. -/
def pingEndpointSwitch (a : AgentWorker) (probeResult : Option PingResponse)
    (ping : PingResponse) : AgentWorker × PingResponse × List Action :=
  if ping.endpoint ≠ "" ∧ ping.endpoint ≠ a.agent.endpoint then
    let newClient := NewAPIClient
      { endpoint := ping.endpoint, token := a.agent.accessToken, disableHTTP2 := false }
    match probeResult with
    | none =>
        (a, ping, [Action.logWarn "failed to ping the new endpoint, ignoring switch"])
    | some newPing =>
        ({ a with apiClient := newClient, agent := { a.agent with endpoint := ping.endpoint } },
         newPing, [])
  else (a, ping, [])

/-- The accept-and-run tail of Ping (lines 393-469), entered once the ping
response carries a job.  Mirrors the source order: proc title, accept retry
loop, the NewJobRunner assignment to `a.jobRunner` (line 431), stopping the
disconnect timer (lines 434-437), the early return on a construction error
(lines 440-443), Run, clearing `jobRunner`, then the two independent
post-job blocks (lines 453-463 and 465-468).  The idle timer is non-nil
whenever `disconnectAfterIdleTimeout` is positive, because Start armed it;
`Option.map` expresses the reset on that timer. -/
def pingAcceptAndRun (a : AgentWorker) (env : PingEnv) (job : Job) :
    AgentWorker × List Action :=
  let preActs : List Action :=
    [Action.updateProcTitle ("job " ++ jobTitleShort job.id),
     Action.logInfo "assigned job, accepting",
     Action.acceptJobCall]
  match env.acceptResult with
  | none => (a, preActs ++ [Action.logError "failed to accept job"])
  | some _accepted =>
    let a1 := { a with jobRunner := env.newRunner }
    let step2 : AgentWorker × List Action :=
      match a1.disconnectTimeoutTimer with
      | some t =>
          ({ a1 with disconnectTimeoutTimer := some (Timer.stop t) },
           [Action.logDebug "job accepted, stopping disconnection timer",
            Action.stopDisconnectTimer])
      | none => (a1, [])
    let a2 := step2.1
    let timerActs := step2.2
    match env.newRunnerErr with
    | some _e => (a2, preActs ++ timerActs ++ [Action.logError "failed to initialize job"])
    | none =>
      let runActs : List Action :=
        Action.runJob (env.newRunner.getD 0) ::
          (match env.runErr with
           | some _ => [Action.logError "failed to run job"]
           | none => [])
      let a3 := { a2 with jobRunner := none }
      let step4 : AgentWorker × List Action :=
        if a3.conf.disconnectAfterJob then
          let step41 : AgentWorker × List Action :=
            match a3.disconnectTimeoutTimer with
            | some t =>
                ({ a3 with disconnectTimeoutTimer := some (Timer.stop t) },
                 [Action.stopDisconnectTimer])
            | none => (a3, [])
          let step42 := Stop step41.1 true
          (step42.1,
           Action.logInfo "job finished, disconnecting" :: (step41.2 ++ step42.2))
        else (a3, [])
      let a4 := step4.1
      let dafActs := step4.2
      let step5 : AgentWorker × List Action :=
        if a4.conf.disconnectAfterIdleTimeout > 0 then
          let idle := a4.idleTimer.map (fun t => Timer.reset t a4.conf.disconnectAfterIdleTimeout)
          ({ a4 with idleTimer := idle },
           [Action.logInfo "job finished, resetting idle timer",
            Action.resetIdleTimer a4.conf.disconnectAfterIdleTimeout])
        else (a4, [])
      (step5.1, preActs ++ timerActs ++ runActs ++ dafActs ++ step5.2)

/-- Ping (lines 324-469).  Proc title first; a transport failure logs and
resets the disconnect timer when present, then returns (lines 328-347);
a success records `lastPing`, runs the endpoint-switch step, surfaces the
advisory message, handles the disconnect directive with a forceful Stop,
goes idle when no job is attached, and otherwise enters the accept-and-run
tail. -/
def Ping (a : AgentWorker) (env : PingEnv) : AgentWorker × List Action :=
  match env.pingResult with
  | none =>
      match a.disconnectTimeoutTimer with
      | some t =>
          let reArmed := some (Timer.reset t a.conf.disconnectAfterJobTimeout)
          ({ a with disconnectTimeoutTimer := reArmed },
           [Action.updateProcTitle "pinging",
            Action.logWarn "failed to ping",
            Action.resetDisconnectTimer a.conf.disconnectAfterJobTimeout,
            Action.logDebug "disconnection timer reset after ping failure"])
      | none =>
          (a, [Action.updateProcTitle "pinging", Action.logWarn "failed to ping"])
  | some ping0 =>
      let a1 := { a with lastPing := env.now }
      let sw := pingEndpointSwitch a1 env.probeResult ping0
      let a2 := sw.1
      let ping := sw.2.1
      let switchActs := sw.2.2
      let msgActs : List Action :=
        if ping.message ≠ "" then [Action.logInfo ping.message] else []
      if ping.action = "disconnect" then
        let st := Stop a2 false
        (st.1, Action.updateProcTitle "pinging" :: (switchActs ++ msgActs ++ st.2))
      else
        match ping.job with
        | none =>
            (a2, Action.updateProcTitle "pinging" ::
              (switchActs ++ msgActs ++ [Action.updateProcTitle "idle"]))
        | some job =>
            let ar := pingAcceptAndRun a2 env job
            (ar.1, Action.updateProcTitle "pinging" :: (switchActs ++ msgActs ++ ar.2))

/-! Concrete fixtures used by counterexamples and witnesses. -/

/-- A registered agent descriptor. -/
def bAgent : AgentRegisterResponse :=
  { name := "agent-1", accessToken := "tok", endpoint := "https://api.example",
    pingInterval := 10, heartbeatInterval := 60 }

/-- A plain worker configuration. -/
def bConf : AgentWorkerConfig :=
  { debug := false, endpoint := "https://default.example", disableHTTP2 := false,
    disconnectAfterJob := false, disconnectAfterJobTimeout := 120,
    disconnectAfterIdleTimeout := 0 }

/-- A freshly constructed worker. -/
def wFresh : AgentWorker := NewAgentWorker bAgent bConf

/-- A worker that has already performed its first Stop, with a job still
running. -/
def wStopping : AgentWorker :=
  { wFresh with stopping := true, stopClosed := true, jobRunner := some 3 }

/-- A worker with a running job and no stop yet. -/
def wJob : AgentWorker := { wFresh with jobRunner := some 7 }

/-- A worker whose last successful ping and heartbeat timestamps differ. -/
def wHb : AgentWorker := { wFresh with lastPing := 100, lastHeartbeat := 50 }

/-- A worker registered with a zero ping interval. -/
def wZeroPing : AgentWorker := NewAgentWorker { bAgent with pingInterval := 0 } bConf

/-- A worker started with both disconnect-after-job and an idle timeout,
with both timers armed (the idle timer mid countdown at 7 to make a reset
observable). -/
def wBoth : AgentWorker :=
  { NewAgentWorker bAgent
      { bConf with disconnectAfterJob := true, disconnectAfterIdleTimeout := 30 } with
    idleTimer := some ⟨7, false⟩, disconnectTimeoutTimer := some ⟨120, false⟩ }

/-- A job descriptor. -/
def jA : Job := { id := "abc-123" }

/-- A cycle where the ping carries a job and everything succeeds. -/
def envRun : PingEnv :=
  { pingResult := some { endpoint := "", message := "", action := "", job := some jA },
    probeResult := none, acceptResult := some jA, newRunner := some 1,
    newRunnerErr := none, runErr := none, now := 10 }

/-- A cycle where the job is accepted but NewJobRunner fails. -/
def envErr : PingEnv :=
  { envRun with newRunner := none, newRunnerErr := some "construction failed" }

/-- A cycle where the ping itself fails at the transport level. -/
def envFail : PingEnv := { envRun with pingResult := none }

/-- An agent and a config for the endpoint-switch scenario. -/
def swAgent : AgentRegisterResponse := { bAgent with endpoint := "https://e1.example" }

/-- A config with DisableHTTP2 requested. -/
def swConf : AgentWorkerConfig := { bConf with disableHTTP2 := true }

/-- A ping response requesting a switch to a new endpoint. -/
def swPing : PingResponse :=
  { endpoint := "https://e2.example", message := "", action := "", job := none }

/-- The response of the successful probe of the new endpoint. -/
def swNewPing : PingResponse :=
  { endpoint := "", message := "welcome", action := "", job := none }

/-! Helper lemmas. -/

theorem countClose_append (l1 l2 : List Action) :
    countClose (l1 ++ l2) = countClose l1 + countClose l2 := by
  induction l1 with
  | nil => simp [countClose]
  | cons x tr ih => cases x <;> simp [countClose, ih, Nat.add_right_comm]

theorem countClose_stopModeActs (a : AgentWorker) (g : Bool) :
    countClose (stopModeActs a g) = 0 := by
  cases g <;> cases hs : a.stopping <;> cases hj : a.jobRunner <;>
    simp [stopModeActs, countClose, hs, hj]

theorem stopN_stopping (ms : List Bool) (a : AgentWorker) (h : a.stopping = true) :
    (stopN a ms).1 = a ∧ countClose (stopN a ms).2 = 0 := by
  induction ms generalizing a with
  | nil => simp [stopN, countClose]
  | cons m ms ih =>
      have hstop : Stop a m = (a, stopModeActs a m) := by simp [Stop, h]
      have hrec := ih a h
      simp [stopN, hstop, countClose_append, countClose_stopModeActs, hrec.1, hrec.2]

/-! Claim theorems. -/

/-- Claim C1: for every execution and every number N >= 1 of Stop calls,
in any mix of graceful and forceful modes (all serialised by `stopMutex`,
hence modelled as sequential composition), the stop channel is closed
exactly once across the whole sequence; the close is performed by the
first call, which is also the call that sets `stopping` to true. -/
theorem stop_channel_closed_exactly_once (a : AgentWorker) (m : Bool) (ms : List Bool)
    (h : a.stopping = false) :
    countClose (stopN a (m :: ms)).2 = 1 ∧
    countClose (Stop a m).2 = 1 ∧
    (Stop a m).1.stopping = true ∧
    (Stop a m).1.stopClosed = true := by
  have hstop : Stop a m =
      ({ a with stopClosed := true, stopping := true },
       stopModeActs a m ++ [Action.updateProcTitle "stopping", Action.closeStop]) := by
    simp [Stop, h]
  have h1 : countClose (Stop a m).2 = 1 := by
    rw [hstop]
    simp [countClose_append, countClose_stopModeActs, countClose]
  have hrec := stopN_stopping ms (Stop a m).1 (by rw [hstop])
  refine ⟨?_, h1, by rw [hstop], by rw [hstop]⟩
  simp [stopN, countClose_append, hrec.2, h1]

/-- Witness for C1 at a fresh worker and three Stop calls. -/
theorem stop_channel_closed_exactly_once_witness :
    countClose (stopN wFresh (true :: [false, true])).2 = 1 ∧
    countClose (Stop wFresh true).2 = 1 ∧
    (Stop wFresh true).1.stopping = true ∧
    (Stop wFresh true).1.stopClosed = true :=
  stop_channel_closed_exactly_once wFresh true [false, true] (by decide)

/-- Claim C2 counterexample: a Stop call made while `stopping` is already
true, in forceful mode with a job still running, invokes Cancel() on the
runner (line 249 runs before the early return at line 257), falsifying the
claim that every Stop call after the first performs no action besides a
log line. -/
theorem second_forceful_stop_still_cancels :
    wStopping.stopping = true ∧
    Action.cancelJob 3 ∈ (Stop wStopping false).2 := by decide

/-- Claim C2 amended: a Stop call made while `stopping` is already true
changes no worker state, does not close the stop channel and does not
update the proc title; but a forceful call that observes a running job
still invokes the (idempotent) Cancel() on that runner, and that is the
only non-log action such a call can perform. -/
theorem stop_after_first_only_logs_and_cancels (a : AgentWorker) (g : Bool)
    (h : a.stopping = true) :
    (Stop a g).1 = a ∧
    Action.closeStop ∉ (Stop a g).2 ∧
    (∀ s, Action.updateProcTitle s ∉ (Stop a g).2) ∧
    (∀ r, Action.cancelJob r ∈ (Stop a g).2 ↔ (g = false ∧ a.jobRunner = some r)) := by
  refine ⟨by simp [Stop, h], ?_, ?_, ?_⟩
  · cases g <;> cases hj : a.jobRunner <;> simp [Stop, stopModeActs, h, hj]
  · intro s
    cases g <;> cases hj : a.jobRunner <;> simp [Stop, stopModeActs, h, hj]
  · intro r
    cases g <;> cases hj : a.jobRunner <;>
      simp [Stop, stopModeActs, h, hj, eq_comm]

/-- Witness for the amended C2 at a stopping worker with a running job. -/
theorem stop_after_first_only_logs_and_cancels_witness :
    (Stop wStopping false).1 = wStopping ∧
    Action.cancelJob 3 ∈ (Stop wStopping false).2 := by
  have h := stop_after_first_only_logs_and_cancels wStopping false (by decide)
  exact ⟨h.1, (h.2.2.2 3).mpr ⟨rfl, by decide⟩⟩

/-- Claim C5: a forceful Stop that observes a running job invokes Cancel()
on it; in the call that performs the close (that is, when `stopping` is not
yet set) the trace is exactly log, Cancel, proc title, close — so Cancel
strictly precedes the close of the stop channel — and a forceful call made
after `stopping` is set performs no close at all. -/
theorem forceful_stop_cancel_before_close (a : AgentWorker) (r : Nat)
    (hj : a.jobRunner = some r) :
    Action.cancelJob r ∈ (Stop a false).2 ∧
    (a.stopping = false →
      (Stop a false).2 =
        [Action.logInfo "forcefully stopping agent, canceling current job",
         Action.cancelJob r, Action.updateProcTitle "stopping", Action.closeStop]) ∧
    (a.stopping = true → Action.closeStop ∉ (Stop a false).2) := by
  cases hs : a.stopping <;> simp [Stop, stopModeActs, hj, hs]

/-- Witness for C5 at a worker with a running job. -/
theorem forceful_stop_cancel_before_close_witness :
    Action.cancelJob 7 ∈ (Stop wJob false).2 ∧
    (wJob.stopping = false →
      (Stop wJob false).2 =
        [Action.logInfo "forcefully stopping agent, canceling current job",
         Action.cancelJob 7, Action.updateProcTitle "stopping", Action.closeStop]) ∧
    (wJob.stopping = true → Action.closeStop ∉ (Stop wJob false).2) :=
  forceful_stop_cancel_before_close wJob 7 (by decide)

/-- Claim C3 counterexample: with disconnect-after-job set (and an idle
timeout configured), a job that is accepted but whose NewJobRunner call
fails does not lead to a graceful Stop, does not close the stop channel and
does not reset the idle timer — the handler returns early at line 442 — so
the disconnect-after-job and idle-reset policies are not applied as they
would be after a job that ran. -/
theorem jobrunner_error_policies_not_applied :
    wBoth.conf.disconnectAfterJob = true ∧
    wBoth.conf.disconnectAfterIdleTimeout = 30 ∧
    wBoth.stopping = false ∧
    envErr.newRunnerErr = some "construction failed" ∧
    (pingAcceptAndRun wBoth envErr jA).1.stopping = false ∧
    Action.closeStop ∉ (pingAcceptAndRun wBoth envErr jA).2 ∧
    Action.resetIdleTimer 30 ∉ (pingAcceptAndRun wBoth envErr jA).2 ∧
    (pingAcceptAndRun wBoth envErr jA).1.idleTimer = some ⟨7, false⟩ := by decide

/-- Claim C3 amended: when NewJobRunner returns an error the worker logs
"failed to initialize job" and returns to the ping loop immediately
(line 442): `jobRunner` holds whatever runner value NewJobRunner returned
alongside the error (conventionally nil), the job-wait disconnect timer has
already been stopped (lines 434-437 precede the error check), and neither
the disconnect-after-job graceful Stop nor the idle-timer reset is
applied — `stopping` and the idle timer are untouched. -/
theorem jobrunner_error_returns_early (a : AgentWorker) (env : PingEnv)
    (job accepted : Job) (e : String)
    (hacc : env.acceptResult = some accepted)
    (herr : env.newRunnerErr = some e) :
    (pingAcceptAndRun a env job).1 = { a with jobRunner := env.newRunner, disconnectTimeoutTimer := a.disconnectTimeoutTimer.map Timer.stop } ∧
    (pingAcceptAndRun a env job).1.stopping = a.stopping ∧
    (pingAcceptAndRun a env job).1.idleTimer = a.idleTimer ∧
    Action.closeStop ∉ (pingAcceptAndRun a env job).2 ∧
    (∀ d, Action.resetIdleTimer d ∉ (pingAcceptAndRun a env job).2) ∧
    Action.logError "failed to initialize job" ∈ (pingAcceptAndRun a env job).2 := by
  cases ht : a.disconnectTimeoutTimer <;>
    refine ⟨?_, ?_, ?_, ?_, fun d => ?_, ?_⟩ <;>
    simp [pingAcceptAndRun, hacc, herr, ht, Timer.stop]

/-- Witness for the amended C3. -/
theorem jobrunner_error_returns_early_witness :
    (pingAcceptAndRun wBoth envErr jA).1 = { wBoth with jobRunner := envErr.newRunner, disconnectTimeoutTimer := wBoth.disconnectTimeoutTimer.map Timer.stop } ∧
    (pingAcceptAndRun wBoth envErr jA).1.stopping = wBoth.stopping ∧
    (pingAcceptAndRun wBoth envErr jA).1.idleTimer = wBoth.idleTimer ∧
    Action.closeStop ∉ (pingAcceptAndRun wBoth envErr jA).2 ∧
    (∀ d, Action.resetIdleTimer d ∉ (pingAcceptAndRun wBoth envErr jA).2) ∧
    Action.logError "failed to initialize job" ∈ (pingAcceptAndRun wBoth envErr jA).2 :=
  jobrunner_error_returns_early wBoth envErr jA jA "construction failed" rfl rfl

/-- Claim C4 counterexample: with both disconnect-after-job and an idle
timeout configured, a completed job leads to the graceful Stop *and* to a
reset of the idle timer (from 7 back to its full 30): the two post-job
blocks at lines 453-463 and 465-468 are independent ifs with no return
between them, falsifying the claim that the idle timer is not reset when
DisconnectAfterJob is set. -/
theorem idle_timer_reset_despite_disconnect_after_job :
    wBoth.conf.disconnectAfterJob = true ∧
    wBoth.conf.disconnectAfterIdleTimeout = 30 ∧
    (pingAcceptAndRun wBoth envRun jA).1.stopping = true ∧
    Action.resetIdleTimer 30 ∈ (pingAcceptAndRun wBoth envRun jA).2 ∧
    (pingAcceptAndRun wBoth envRun jA).1.idleTimer = some ⟨30, false⟩ := by decide

/-- Claim C4 amended: after a job completion with `jobRunner` cleared, the
two policies are applied independently: if DisconnectAfterJob is set a
graceful Stop is initiated (closing the stop channel), and additionally,
whenever DisconnectAfterIdleTimeout > 0, the idle timer is still reset to
its full duration — there is no return or else between the two blocks. -/
theorem disconnect_after_job_and_idle_reset_both_apply (a : AgentWorker) (env : PingEnv)
    (job accepted : Job)
    (hacc : env.acceptResult = some accepted)
    (herr : env.newRunnerErr = none)
    (hdaf : a.conf.disconnectAfterJob = true)
    (hidle : a.conf.disconnectAfterIdleTimeout > 0)
    (hs : a.stopping = false) :
    (pingAcceptAndRun a env job).1.stopping = true ∧
    Action.closeStop ∈ (pingAcceptAndRun a env job).2 ∧
    Action.resetIdleTimer a.conf.disconnectAfterIdleTimeout ∈ (pingAcceptAndRun a env job).2 ∧
    (pingAcceptAndRun a env job).1.idleTimer =
      a.idleTimer.map (fun t => Timer.reset t a.conf.disconnectAfterIdleTimeout) := by
  cases ht : a.disconnectTimeoutTimer <;> cases hr : env.runErr <;>
    simp [pingAcceptAndRun, Stop, stopModeActs, hacc, herr, hdaf, hidle, hs, ht, hr]

/-- Witness for the amended C4. -/
theorem disconnect_after_job_and_idle_reset_both_apply_witness :
    (pingAcceptAndRun wBoth envRun jA).1.stopping = true ∧
    Action.closeStop ∈ (pingAcceptAndRun wBoth envRun jA).2 ∧
    Action.resetIdleTimer wBoth.conf.disconnectAfterIdleTimeout ∈ (pingAcceptAndRun wBoth envRun jA).2 ∧
    (pingAcceptAndRun wBoth envRun jA).1.idleTimer =
      wBoth.idleTimer.map (fun t => Timer.reset t wBoth.conf.disconnectAfterIdleTimeout) :=
  disconnect_after_job_and_idle_reset_both_apply wBoth envRun jA jA rfl rfl
    (by decide) (by decide) (by decide)

/-- Claim C6: a Ping that fails at the transport level while the job-wait
timer is armed resets that timer to its full DisconnectAfterJobTimeout
duration, and the handler returns having done nothing else: the trace is
exactly proc title, warn log, timer reset, debug log — no directive is
processed. -/
theorem ping_failure_resets_job_wait_timer (a : AgentWorker) (env : PingEnv) (t : Timer)
    (hfail : env.pingResult = none)
    (ht : a.disconnectTimeoutTimer = some t)
    (_harmed : t.stopped = false) :
    (Ping a env).1 = { a with disconnectTimeoutTimer := some ⟨a.conf.disconnectAfterJobTimeout, false⟩ } ∧
    (Ping a env).2 =
      [Action.updateProcTitle "pinging", Action.logWarn "failed to ping",
       Action.resetDisconnectTimer a.conf.disconnectAfterJobTimeout,
       Action.logDebug "disconnection timer reset after ping failure"] := by
  simp [Ping, hfail, ht, Timer.reset]

/-- Witness for C6. -/
theorem ping_failure_resets_job_wait_timer_witness :
    (Ping wBoth envFail).1 = { wBoth with disconnectTimeoutTimer := some ⟨wBoth.conf.disconnectAfterJobTimeout, false⟩ } ∧
    (Ping wBoth envFail).2 =
      [Action.updateProcTitle "pinging", Action.logWarn "failed to ping",
       Action.resetDisconnectTimer wBoth.conf.disconnectAfterJobTimeout,
       Action.logDebug "disconnection timer reset after ping failure"] :=
  ping_failure_resets_job_wait_timer wBoth envFail ⟨120, false⟩ rfl (by decide) rfl

/-- Claim C7 (code-bug evidence): at a state whose last successful ping was
at t=100 and last successful heartbeat at t=50, a heartbeat failure logged
at t=150 reports an elapsed duration of 50 seconds, because line 147 loads
the `lastPing` field; the elapsed time since the last successful heartbeat,
which the spec and the local variable name intend, is 100 seconds. -/
theorem heartbeat_failure_elapsed_uses_lastPing :
    wHb.lastPing = 100 ∧ wHb.lastHeartbeat = 50 ∧
    heartbeatFailureElapsed wHb 150 = 50 ∧
    heartbeatFailureElapsedSpec wHb 150 = 100 ∧
    heartbeatFailureElapsed wHb 150 ≠ heartbeatFailureElapsedSpec wHb 150 := by decide

/-- Claim C8 (code-bug evidence): with a ping interval of 0, the ticker
creation at line 137 hands a non-positive duration to time.NewTicker, which
panics, so Start panics instead of treating 0 as do-not-schedule. -/
theorem start_panics_on_zero_ping_interval :
    wZeroPing.agent.pingInterval = 0 ∧
    startCreateTicker wZeroPing = Except.error "non-positive interval for NewTicker" := by
  constructor <;> rfl

/-- Claim C9: entering the Start loop with `stopping` false issues a Ping
immediately, before the first ticker tick is consumed, and with `stopping`
false throughout, a schedule of n ticks followed by the stop signal
produces exactly n + 1 Ping attempts: one on entry plus one per tick. -/
theorem first_ping_immediate_one_per_tick (n : Nat) :
    (mainLoop (List.replicate (n + 1) false)
      (List.replicate n LoopEvent.tick ++ [LoopEvent.stopSignal])).head? =
        some Action.pingCall ∧
    countPing (mainLoop (List.replicate (n + 1) false)
      (List.replicate n LoopEvent.tick ++ [LoopEvent.stopSignal])) = n + 1 := by
  induction n with
  | zero => constructor <;> rfl
  | succ k ih =>
      have hev : List.replicate (k + 1) LoopEvent.tick ++ [LoopEvent.stopSignal]
          = LoopEvent.tick :: (List.replicate k LoopEvent.tick ++ [LoopEvent.stopSignal]) := by
        simp [List.replicate_succ]
      have hfl : List.replicate (k + 1 + 1) (false : Bool)
          = false :: List.replicate (k + 1) false := by
        simp [List.replicate_succ]
      rw [hev, hfl]
      refine ⟨by simp [mainLoop], ?_⟩
      simp [mainLoop, countPing, ih.2]

/-- Witness for C9 at n = 2. -/
theorem first_ping_immediate_one_per_tick_witness :
    (mainLoop (List.replicate (2 + 1) false)
      (List.replicate 2 LoopEvent.tick ++ [LoopEvent.stopSignal])).head? =
        some Action.pingCall ∧
    countPing (mainLoop (List.replicate (2 + 1) false)
      (List.replicate 2 LoopEvent.tick ++ [LoopEvent.stopSignal])) = 2 + 1 :=
  first_ping_immediate_one_per_tick 2

/-- Claim C10: a worker built by NewAgentWorker with DisableHTTP2 set gets
an API client carrying disableHTTP2 true, but the replacement client built
on a successful endpoint switch is constructed with the same access token
and — because the struct literal at lines 358-361 omits the field, leaving
it at the Go zero value — disableHTTP2 false: the setting is silently lost
in the client used after the switch. -/
theorem endpoint_switch_drops_disable_http2 (ar : AgentRegisterResponse)
    (c : AgentWorkerConfig) (ping newPing : PingResponse)
    (hh2 : c.disableHTTP2 = true)
    (h1 : ping.endpoint ≠ "")
    (h2 : ping.endpoint ≠ ar.endpoint) :
    (NewAgentWorker ar c).apiClient.config.disableHTTP2 = true ∧
    (NewAgentWorker ar c).apiClient.config.token = ar.accessToken ∧
    (pingEndpointSwitch (NewAgentWorker ar c) (some newPing) ping).1.apiClient.config =
      { endpoint := ping.endpoint, token := ar.accessToken, disableHTTP2 := false } := by
  refine ⟨?_, ?_, ?_⟩
  · simp [NewAgentWorker, NewAPIClient, hh2]
  · simp [NewAgentWorker, NewAPIClient]
  · simp [pingEndpointSwitch, NewAgentWorker, NewAPIClient, h1, h2]

/-- Witness for C10: an agent on e1 switched to e2 with DisableHTTP2 set. -/
theorem endpoint_switch_drops_disable_http2_witness :
    (NewAgentWorker swAgent swConf).apiClient.config.disableHTTP2 = true ∧
    (NewAgentWorker swAgent swConf).apiClient.config.token = swAgent.accessToken ∧
    (pingEndpointSwitch (NewAgentWorker swAgent swConf) (some swNewPing) swPing).1.apiClient.config =
      { endpoint := swPing.endpoint, token := swAgent.accessToken, disableHTTP2 := false } :=
  endpoint_switch_drops_disable_http2 swAgent swConf swPing swNewPing (by decide)
    (by decide) (by decide)

end AgentWorkerModel
